import Mathlib

/-!
Shallow embedding of the SQLite recovery server (the Express application in
src/unnamed/part_002, plus the standalone scripts src/create-db-from-sql.js and
src/check-stuck.js, and the older variant src/server.js where noted).
Each section embeds the control flow and data handling of one part of the
source and proves or refutes the corresponding specification claims.
-/

namespace RecoverySrv

/-! ### Recovery submission handler: file lifecycle
Embeds the file side effects of the POST /api/recover handler
(src/unnamed/part_002 lines 108-271).  The filesystem is modelled as the
list of the four files the handler touches. -/

/-- The files the recovery submission handler creates or deletes:
the multer-stored upload (req.file.path), the ZIP-extracted substitute,
the recovery SQL output and the recovered database output. -/
inductive FsFile where
  | upload
  | extracted
  | sqlOut
  | dbOut
  deriving DecidableEq, Repr

/-- Outcome switches of one run of the submission handler: whether the upload
was a ZIP archive, whether extractSqliteFromZip returned a file, whether
executeRecovery resolved with success, and whether createDatabaseFromSql
resolved with success. -/
structure RecoverReq where
  isZip : Bool
  extractOk : Bool
  recoveryOk : Bool
  dbCreateOk : Bool
  deriving DecidableEq, Repr

/-- The catch block of the submission handler (part_002 lines 246-270).
It unlinks req.file.path inside a try/catch.  The second cleanup branch
tests typeof inputPath !== undefined, but inputPath is a let binding inside
the try block and is not in scope in the catch block, so the typeof test
evaluates to the string undefined and the branch never runs: the extracted
file is never unlinked here. -/
def recoverCatchCleanup (fs : List FsFile) : List FsFile :=
  fs.erase FsFile.upload

/-- The handler after the input file has been settled (inputPath is either the
original upload or the ZIP-extracted substitute): executeRecovery, then
createDatabaseFromSql, then stats, then a final try-unlink of inputPath
(part_002 lines 200-244); any failure throws into the catch block.
Returns the final filesystem and whether the response was a success. -/
def recoverAfterInput (r : RecoverReq) (fs : List FsFile) (input : FsFile) :
    List FsFile × Bool :=
  if r.recoveryOk then
    let fs1 := FsFile.sqlOut :: fs
    if r.dbCreateOk then
      let fs2 := FsFile.dbOut :: fs1
      (fs2.erase input, true)
    else (recoverCatchCleanup fs1, false)
  else (recoverCatchCleanup fs, false)

/-- One run of the POST /api/recover handler starting from the filesystem
holding only the fresh upload (part_002 lines 108-271).  For ZIP uploads the
handler extracts the archive, unlinks the original ZIP, and continues with
the extracted file as inputPath; a failed extraction throws. -/
def recoverRun (r : RecoverReq) : List FsFile × Bool :=
  let fs0 : List FsFile := [FsFile.upload]
  if r.isZip then
    if r.extractOk then
      let fs1 := FsFile.extracted :: fs0
      let fs2 := fs1.erase FsFile.upload
      recoverAfterInput r fs2 FsFile.extracted
    else (recoverCatchCleanup fs0, false)
  else recoverAfterInput r fs0 FsFile.upload

/-! ### Database materializer target handling (C6)
The server materializer createDatabaseFromSql (part_002 lines 1244-1326)
spawns sqlite3 on the target path directly; it contains no existsSync or
unlink guard.  The standalone script src/create-db-from-sql.js lines 13-17
unlinks a pre-existing target first.  A filesystem maps each path to the
list of SQL statements already applied to the database file stored there;
spawning sqlite3 on an existing file replays the script into its current
content. -/

/-- A filesystem for the materializer model: each path optionally holds
the statement list of the database file stored there. -/
def DbFs : Type := String → Option (List String)

/-- Replaying a script into a database file: the statements are applied on
top of whatever content the file already has (the external sqlite3 process
opens an existing target file as a live database). -/
def applyScript (init : Option (List String)) (script : List String) : List String :=
  init.getD [] ++ script

/-- Filesystem state at the moment the server materializer spawns sqlite3
(part_002 lines 1244-1326): the function performs no filesystem operation on
the target path before spawning, so the state is unchanged. -/
def createDatabaseFromSql_preSpawn (fs : DbFs) (_dbPath : String) : DbFs := fs

/-- The server materializer run (part_002 lines 1244-1326): sqlite3 is
spawned on dbPath as it is and the script is piped in. -/
def createDatabaseFromSql_run (fs : DbFs) (script : List String) (dbPath : String) : DbFs :=
  let fs1 := createDatabaseFromSql_preSpawn fs dbPath
  fun p => if p = dbPath then some (applyScript (fs1 dbPath) script) else fs1 p

/-- Filesystem state at the moment the standalone materialization script
spawns sqlite3 (src/create-db-from-sql.js lines 13-17): a pre-existing file
at the target path is unlinked first. -/
def createDbScript_preSpawn (fs : DbFs) (dbPath : String) : DbFs :=
  fun p => if p = dbPath then none else fs p

/-- The standalone materialization script run (src/create-db-from-sql.js):
remove a pre-existing target, then spawn sqlite3 on the target and pipe the
script in. -/
def createDbScript_run (fs : DbFs) (script : List String) (dbPath : String) : DbFs :=
  let fs1 := createDbScript_preSpawn fs dbPath
  fun p => if p = dbPath then some (applyScript (fs1 dbPath) script) else fs1 p

/-- A concrete filesystem with a stale database file already sitting at the
target path of a materialization run. -/
def staleFs : DbFs :=
  fun p => if p = "uploads/recovered.db" then some ["STALE ROW"] else none

/-- Claim C1 (code bug witness): a ZIP upload whose archive extracts
successfully and whose recovery step then fails leaves the ZIP-extracted
substitute file on disk when the error response is returned: the catch-block
guard typeof inputPath !== undefined is always false because inputPath is
scoped to the try block, so the extracted-file cleanup branch is dead code.
The original upload is gone (it was unlinked right after extraction), but
the substitute survives the failure path. -/
theorem recover_failure_leaks_extracted_file :
    (recoverRun ⟨true, true, false, true⟩).2 = false ∧
      FsFile.extracted ∈ (recoverRun ⟨true, true, false, true⟩).1 ∧
      FsFile.upload ∉ (recoverRun ⟨true, true, false, true⟩).1 := by
  decide

/-- Claim C6 (counterexample): the server materializer starts the replay
process with a pre-existing file still present at the target path, and the
produced database mixes the stale content with the fresh script. -/
theorem materializer_keeps_stale_target_counterexample :
    createDatabaseFromSql_preSpawn staleFs "uploads/recovered.db" "uploads/recovered.db"
        = some ["STALE ROW"] ∧
      createDatabaseFromSql_run staleFs ["CREATE TABLE t(x);"] "uploads/recovered.db"
          "uploads/recovered.db"
        = some ["STALE ROW", "CREATE TABLE t(x);"] := by
  constructor <;> decide

/-- Claim C6 (amended): only the standalone materialization script removes a
pre-existing file at the target database path before starting the replay
process; for it, the target is absent at spawn time and the produced
database holds exactly the replayed script, never mixing stale data. -/
theorem script_materializer_removes_target (fs : DbFs) (script : List String)
    (dbPath : String) :
    createDbScript_preSpawn fs dbPath dbPath = none ∧
      createDbScript_run fs script dbPath dbPath = some script := by
  refine ⟨?_, ?_⟩
  · simp [createDbScript_preSpawn]
  · simp [createDbScript_run, createDbScript_preSpawn, applyScript]

/-! ### Recovery strategy chain (C2) and capability probe (C7)
Embeds executeRecovery (part_002 lines 606-688), tryAlternativeRecovery
(part_002 lines 691-720) and the probe functions checkSqliteVersion and
testRecoverCommand (part_002 lines 515-603), plus the startup call in
startServer (part_002 lines 1485-1520). -/

/-- The recovery strategies the specification names.  dumpAll stands for the
unconditional full-dump mode (tryDumpCommand). -/
inductive Strategy where
  | fullRecover
  | dumpAll
  | tableByTable
  | schemaOnly
  | tableListOnly
  deriving DecidableEq, Repr

/-- Environment reported by the capability probe: whether the sqlite3 binary
answered the version check, and whether its help output lists the .recover
command. -/
structure RecoveryEnv where
  sqliteOk : Bool
  hasRecover : Bool
  deriving DecidableEq, Repr

/-- Per-session outcomes of the individual strategies, as the chain branches
on them: whether the .recover spawn closed with exit code 0, whether
tryTableByTableRecovery resolved with success, and whether
trySchemaExtraction resolved with success.  tryBasicExtraction is always the
last resort and the chain returns its result unconditionally. -/
structure ChainOracle where
  fullRecoverOk : Bool
  tableByTableOk : Bool
  schemaOk : Bool
  deriving DecidableEq, Repr

/-- Strategies attempted by tryAlternativeRecovery (part_002 lines 691-720):
the function skips the full-dump step with the comment that .dump causes
hangs, calling tryTableByTableRecovery directly, then trySchemaExtraction if
that failed, then tryBasicExtraction if that failed too. -/
def altAttempts (o : ChainOracle) : List Strategy :=
  Strategy.tableByTable ::
    (if o.tableByTableOk then []
     else Strategy.schemaOnly ::
       (if o.schemaOk then [] else [Strategy.tableListOnly]))

/-- Strategies attempted by executeRecovery (part_002 lines 606-688): if the
probe reports sqlite3 missing, nothing is attempted (immediate failure); if
it reports .recover unsupported, the chain goes straight to
tryAlternativeRecovery; otherwise the .recover spawn runs first and any
close with a nonzero exit code falls through to tryAlternativeRecovery
(a close with code 0 counts as success even when the output is empty). -/
def executeRecoveryAttempts (env : RecoveryEnv) (o : ChainOracle) : List Strategy :=
  if env.sqliteOk then
    if env.hasRecover then
      Strategy.fullRecover :: (if o.fullRecoverOk then [] else altAttempts o)
    else altAttempts o
  else []

/-- Claim C2 (counterexample): with a sqlite3 that supports .recover, when
the primary full-recover step fails the next attempted strategy is
table-by-table recovery; the full-dump strategy is not attempted at all
(the streaming tryDumpCommand of part_002 is never invoked by the chain). -/
theorem chain_skips_dump_counterexample :
    executeRecoveryAttempts ⟨true, true⟩ ⟨false, true, true⟩
        = [Strategy.fullRecover, Strategy.tableByTable] ∧
      Strategy.dumpAll ∉ executeRecoveryAttempts ⟨true, true⟩ ⟨false, true, true⟩ := by
  decide

/-- Claim C2 (amended): on the current server the fallback chain is
full-recover, then table-by-table, then schema-only, then table-list-only;
each strategy is attempted only if the previous one reported failure, the
chain halts at the first success, and the streaming full-dump strategy is
never attempted. -/
theorem chain_order_amended (o : ChainOracle) :
    executeRecoveryAttempts ⟨true, true⟩ o
        = (if o.fullRecoverOk then [Strategy.fullRecover]
           else if o.tableByTableOk then [Strategy.fullRecover, Strategy.tableByTable]
           else if o.schemaOk then
             [Strategy.fullRecover, Strategy.tableByTable, Strategy.schemaOnly]
           else
             [Strategy.fullRecover, Strategy.tableByTable, Strategy.schemaOnly,
               Strategy.tableListOnly]) ∧
      Strategy.dumpAll ∉ executeRecoveryAttempts ⟨true, true⟩ o := by
  obtain ⟨f, t, s⟩ := o
  cases f <;> cases t <;> cases s <;> decide

/-- The external processes a recovery session spawns, as far as the probe
and the primary strategy are concerned.  strategySpawn covers the spawns
made by the fallback strategies. -/
inductive SpawnKind where
  | versionProbe
  | helpProbe
  | recoverSpawn
  | strategySpawn (s : Strategy)
  deriving DecidableEq, Repr

/-- Spawns of checkSqliteVersion (part_002 lines 515-561): sqlite3 --version
always runs; only when it closes successfully does testRecoverCommand run
the .help probe (part_002 lines 564-603). -/
def checkSqliteVersionSpawns (env : RecoveryEnv) : List SpawnKind :=
  if env.sqliteOk then [SpawnKind.versionProbe, SpawnKind.helpProbe]
  else [SpawnKind.versionProbe]

/-- Spawns of one executeRecovery call (part_002 lines 606-688): it begins
with await checkSqliteVersion() on every invocation, then spawns .recover
only when the probe reports support, falling back to the alternative
strategies otherwise or on a nonzero exit. -/
def executeRecoverySpawns (env : RecoveryEnv) (o : ChainOracle) : List SpawnKind :=
  checkSqliteVersionSpawns env ++
    (if env.sqliteOk then
       if env.hasRecover then
         SpawnKind.recoverSpawn ::
           (if o.fullRecoverOk then [] else (altAttempts o).map SpawnKind.strategySpawn)
       else (altAttempts o).map SpawnKind.strategySpawn
     else [])

/-- Spawns of a sequence of recovery sessions, each running executeRecovery
once. -/
def sessionsSpawns (env : RecoveryEnv) : List ChainOracle → List SpawnKind
  | [] => []
  | o :: ss => executeRecoverySpawns env o ++ sessionsSpawns env ss

/-- Spawns of a whole server run: startServer performs one probe at startup
(part_002 lines 1485-1520), then each submitted recovery session runs
executeRecovery. -/
def serverSpawnTrace (env : RecoveryEnv) (sessions : List ChainOracle) : List SpawnKind :=
  checkSqliteVersionSpawns env ++ sessionsSpawns env sessions

/-- A session in which every strategy fails. -/
def oAllFail : ChainOracle := ⟨false, false, false⟩

/-- Claim C7 (counterexample): with sqlite3 present but .recover unsupported,
a server run with a single recovery session spawns the version probe twice,
not once: executeRecovery re-runs checkSqliteVersion on every request. -/
theorem probe_rerun_counterexample :
    (serverSpawnTrace ⟨true, false⟩ [oAllFail]).count SpawnKind.versionProbe = 2 ∧
      (2 : Nat) ≠ 1 := by
  decide

/-- Each session with .recover unsupported spawns the version probe exactly
once and never spawns .recover. -/
theorem session_spawns_noRecover (o : ChainOracle) :
    (executeRecoverySpawns ⟨true, false⟩ o).count SpawnKind.versionProbe = 1 ∧
      SpawnKind.recoverSpawn ∉ executeRecoverySpawns ⟨true, false⟩ o := by
  obtain ⟨f, t, s⟩ := o
  cases f <;> cases t <;> cases s <;> decide

/-- Claim C7 (amended): the capability probe runs once at startup and then
once more at the start of every recovery session (executeRecovery re-invokes
checkSqliteVersion per request, so a run with n sessions spawns the version
probe n + 1 times); when the probe reports .recover unsupported, every
session still skips the primary strategy: the .recover command is never
spawned. -/
theorem probe_per_session_amended (sessions : List ChainOracle) :
    (serverSpawnTrace ⟨true, false⟩ sessions).count SpawnKind.versionProbe
        = 1 + sessions.length ∧
      SpawnKind.recoverSpawn ∉ serverSpawnTrace ⟨true, false⟩ sessions := by
  have hsess : ∀ ss : List ChainOracle,
      (sessionsSpawns ⟨true, false⟩ ss).count SpawnKind.versionProbe = ss.length ∧
        SpawnKind.recoverSpawn ∉ sessionsSpawns ⟨true, false⟩ ss := by
    intro ss
    induction ss with
    | nil => simp [sessionsSpawns]
    | cons o ss ih =>
      have ho := session_spawns_noRecover o
      refine ⟨?_, ?_⟩
      · simp [sessionsSpawns, List.count_append, ho.1, ih.1, Nat.add_comm]
      · simp only [sessionsSpawns, List.mem_append]
        rintro (h | h)
        · exact ho.2 h
        · exact ih.2 h
  refine ⟨?_, ?_⟩
  · simp [serverSpawnTrace, List.count_append, (hsess sessions).1,
      checkSqliteVersionSpawns, List.count_cons, Nat.add_comm]
  · simp only [serverSpawnTrace, List.mem_append]
    rintro (h | h)
    · simp [checkSqliteVersionSpawns] at h
    · exact (hsess sessions).2 h

/-! ### Streaming dump watchdog (C4, C5)
Embeds the monitoring logic of tryDumpCommand (part_002 lines 723-983) as a
discrete-time simulation with one-second granularity.  The run is driven by
a byte-arrival schedule; the child process is assumed not to exit on its own
(the hung-process scenario the watchdog exists for).  Three timers run:
a one-shot 20-second zero-output timeout, a 15-second watchdog interval and
a 10-second heartbeat interval.  Within one simulated second, data arrival
is processed first, then the timers in their registration order. -/

/-- One mebibyte, the unit of the progress thresholds in tryDumpCommand. -/
def MB : Nat := 1024 * 1024

/-- The kill outcomes of a monitored streaming dump run:
noOutput for the two zero-output kill sites (the 20-second one-shot and the
watchdog branch that fires when no bytes have arrived 15 seconds in),
stalled for the heartbeat kill after more than 120 seconds without at least
1 MB of new output, and absoluteCeiling for the watchdog kill after 180
seconds without a significant (more than 10 MB) jump. -/
inductive KillOutcome where
  | noOutput
  | stalled
  | absoluteCeiling
  deriving DecidableEq, Repr

/-- Mutable state of the monitors in tryDumpCommand: total bytes written,
the heartbeat progress tracker (lastSignificantProgress, bytesAtLastCheck)
and the watchdog jump tracker (lastSignificantSize,
timeAtLastSignificantSize).  All timestamps are in seconds since the
process start. -/
structure DumpState where
  bytesWritten : Nat
  lastSignificantProgress : Nat
  bytesAtLastCheck : Nat
  lastSignificantSize : Nat
  timeAtLastSignificantSize : Nat
  deriving DecidableEq, Repr

/-- Monitor state right after the timers are armed (part_002 lines 741-750):
every counter is zero and every timestamp is the process start. -/
def initDumpState : DumpState := ⟨0, 0, 0, 0, 0⟩

/-- The stdout data handler (part_002 lines 906-937): add the chunk to
bytesWritten and, on a jump of more than 10 MB past the last recorded
significant size, reset the watchdog jump tracker.  A second with no
arriving bytes fires no data event. -/
def onData (s : DumpState) (t b : Nat) : DumpState :=
  if b = 0 then s
  else
    let bw := s.bytesWritten + b
    if bw - s.lastSignificantSize > 10 * MB then
      { s with bytesWritten := bw, lastSignificantSize := bw,
               timeAtLastSignificantSize := t }
    else { s with bytesWritten := bw }

/-- The 20-second one-shot timeout (part_002 lines 761-782): kill with the
no-output outcome if still not a single byte has been produced. -/
def zeroTimeoutFire (s : DumpState) : Option KillOutcome :=
  if s.bytesWritten = 0 then some KillOutcome.noOutput else none

/-- One firing of the 15-second watchdog interval (part_002 lines 786-838):
kill with the no-output outcome if zero bytes have arrived at least 15
seconds after start, else kill with the absolute-ceiling outcome if at
least 180 seconds have passed without a significant size jump while some
bytes exist. -/
def watchdogFire (s : DumpState) (t : Nat) : Option KillOutcome :=
  if s.bytesWritten = 0 ∧ 15 ≤ t then some KillOutcome.noOutput
  else if 180 ≤ t - s.timeAtLastSignificantSize ∧ 0 < s.bytesWritten then
    some KillOutcome.absoluteCeiling
  else none

/-- One firing of the 10-second heartbeat interval (part_002 lines 845-903):
first update the progress tracker when more than 1 MB arrived since the last
check, then kill with the stalled outcome if more than 120 seconds have
passed without significant progress while some bytes exist. -/
def heartbeatFire (s : DumpState) (t : Nat) : DumpState × Option KillOutcome :=
  let s1 :=
    if s.bytesWritten - s.bytesAtLastCheck > MB then
      { s with lastSignificantProgress := t, bytesAtLastCheck := s.bytesWritten }
    else s
  if 120 < t - s1.lastSignificantProgress ∧ 0 < s1.bytesWritten then
    (s1, some KillOutcome.stalled)
  else (s1, none)

/-- One simulated second t of the monitored run: process the bytes that
arrived during that second, then fire whichever timers are due at t, in
registration order (the one-shot 20 s timeout, then the watchdog interval,
then the heartbeat interval). -/
def dumpStep (arrival : Nat → Nat) (s : DumpState) (t : Nat) :
    DumpState × Option (Nat × KillOutcome) :=
  let s1 := onData s t (arrival t)
  match (if t = 20 then zeroTimeoutFire s1 else none) with
  | some k => (s1, some (t, k))
  | none =>
    match (if t % 15 = 0 then watchdogFire s1 t else none) with
    | some k => (s1, some (t, k))
    | none =>
      if t % 10 = 0 then
        match heartbeatFire s1 t with
        | (s2, some k) => (s2, some (t, k))
        | (s2, none) => (s2, none)
      else (s1, none)

/-- Run the monitors second by second starting at second t with the given
fuel, returning the first kill event (kill second and outcome). -/
def runDumpAux (arrival : Nat → Nat) : Nat → Nat → DumpState → Option (Nat × KillOutcome)
  | 0, _, _ => none
  | fuel + 1, t, s =>
    match dumpStep arrival s t with
    | (_, some r) => some r
    | (s1, none) => runDumpAux arrival fuel (t + 1) s1

/-- The monitored run of tryDumpCommand over the given byte-arrival
schedule, observed up to the given horizon in seconds: the first kill event
if one occurs within the horizon. -/
def runDump (arrival : Nat → Nat) (horizon : Nat) : Option (Nat × KillOutcome) :=
  runDumpAux arrival horizon 1 initDumpState

/-- A kill event found within some fuel is preserved by any larger fuel. -/
theorem runDumpAux_mono (arrival : Nat → Nat) (r : Nat × KillOutcome) :
    ∀ fuel m t s, runDumpAux arrival fuel t s = some r →
      runDumpAux arrival (fuel + m) t s = some r := by
  intro fuel
  induction fuel with
  | zero => intro m t s h; simp [runDumpAux] at h
  | succ fuel ih =>
    intro m t s h
    have hstep : fuel + 1 + m = (fuel + m) + 1 := by omega
    rw [hstep]
    rw [runDumpAux] at h ⊢
    cases hd : dumpStep arrival s t with
    | mk s1 res =>
      rw [hd] at h
      cases res with
      | some r2 => simpa using h
      | none =>
        simp only at h ⊢
        exact ih m (t + 1) s1 h

/-- The byte-arrival schedule of a child process that emits one byte during
the first second and one byte every 200 seconds after that. -/
def trickleArrival : Nat → Nat := fun n => if n % 200 = 1 then 1 else 0

/-- Claim C4: a monitored streaming-dump run whose child process emits zero
bytes is killed by the watchdog with the no-output outcome at second 15 of
the run, for any observation horizon of at least 15 seconds: within the
15 to 20 second grace window, hence never past it by any monitoring tick. -/
theorem watchdog_zero_output_killed_in_grace (arrival : Nat → Nat)
    (hz : ∀ n, arrival n = 0) (h : Nat) (hh : 15 ≤ h) :
    runDump arrival h = some (15, KillOutcome.noOutput) ∧ 15 ≤ 20 := by
  have harr : arrival = fun _ => 0 := funext hz
  subst harr
  obtain ⟨m, rfl⟩ := Nat.exists_eq_add_of_le hh
  refine ⟨?_, by decide⟩
  have base : runDump (fun _ => 0) 15 = some (15, KillOutcome.noOutput) := by decide
  exact runDumpAux_mono (fun _ => 0) (15, KillOutcome.noOutput) 15 m 1 initDumpState base

/-- Claim C4 witness: the zero-output schedule observed for 20 seconds. -/
theorem watchdog_zero_output_killed_in_grace_witness :
    ((∀ n : Nat, (fun _ : Nat => 0) n = 0) ∧ 15 ≤ 20) ∧
      (runDump (fun _ => 0) 20 = some (15, KillOutcome.noOutput) ∧ 15 ≤ 20) :=
  ⟨⟨fun _ => rfl, by decide⟩,
    watchdog_zero_output_killed_in_grace (fun _ => 0) (fun _ => rfl) 20 (by decide)⟩

/-- Claim C5 (counterexample): a child process that emits one byte at the
start and one byte every 200 seconds is killed at second 130 by the
heartbeat stall detector (more than 120 seconds without 1 MB of progress),
not by the 180-second absolute ceiling: the kill outcome is stalled, not
the absolute-ceiling timeout the claim names. -/
theorem trickle_killed_stalled_counterexample :
    runDump trickleArrival 1000 = some (130, KillOutcome.stalled) ∧
      KillOutcome.stalled ≠ KillOutcome.absoluteCeiling := by
  refine ⟨?_, by decide⟩
  have base : runDump trickleArrival 130 = some (130, KillOutcome.stalled) := by decide
  have := runDumpAux_mono trickleArrival (130, KillOutcome.stalled) 130 870 1
    initDumpState base
  simpa using this

/-- Claim C5 (amended): a monitored streaming-dump run whose child emits one
byte at the start and one byte every 200 seconds indefinitely is eventually
killed, but by the no-significant-progress stall detector at the 130-second
heartbeat, before the 180-second absolute ceiling can fire; the kill happens
at second 130 for every observation horizon of at least 130 seconds. -/
theorem trickle_killed_by_stall_detector (h : Nat) (hh : 130 ≤ h) :
    runDump trickleArrival h = some (130, KillOutcome.stalled) := by
  obtain ⟨m, rfl⟩ := Nat.exists_eq_add_of_le hh
  have base : runDump trickleArrival 130 = some (130, KillOutcome.stalled) := by decide
  exact runDumpAux_mono trickleArrival (130, KillOutcome.stalled) 130 m 1 initDumpState base

/-- Claim C5 amended witness: the trickle schedule observed for 130
seconds. -/
theorem trickle_killed_by_stall_detector_witness :
    130 ≤ 130 ∧ runDump trickleArrival 130 = some (130, KillOutcome.stalled) :=
  ⟨by decide, trickle_killed_by_stall_detector 130 (by decide)⟩

/-! ### Table-by-table recovery (C3)
Embeds tryTableByTableRecovery (part_002 lines 1027-1100).  The per-table
dump dumpSingleTable (part_002 lines 1103-1143) is abstracted as a function
from the table name to its resolved result; the output SQL file is modelled
as the ordered list of chunks the function appends to it. -/

/-- Resolved result of dumpSingleTable for one table: success with the
dumped SQL, or failure with the error text (the timeout path resolves with
the error text timeout). -/
structure TableDump where
  success : Bool
  sql : String
  err : String
  deriving DecidableEq, Repr

/-- The chunk the loop body appends to the output file for one table
(part_002 lines 1066-1076): the dumped SQL under a table header on success,
an explanatory placeholder comment naming the failure on failure. -/
def tableChunk (name : String) (d : TableDump) : String :=
  if d.success then "\n-- Table: " ++ name ++ "\n" ++ d.sql ++ "\n"
  else "\n-- Table: " ++ name ++ " (FAILED - " ++ d.err ++ ")\n"

/-- The table names for which the loop calls dumpSingleTable, in order: the
for loop over the enumerated tables has no break, so every table is
attempted regardless of earlier failures. -/
def attemptedTables (dump : String → TableDump) : List String → List String
  | [] => []
  | t :: ts => t :: attemptedTables dump ts

/-- The chunks the loop appends to the output file, in order. -/
def tableChunks (dump : String → TableDump) : List String → List String
  | [] => []
  | t :: ts => tableChunk t (dump t) :: tableChunks dump ts

/-- successCount after the loop. -/
def tableSuccessCount (dump : String → TableDump) : List String → Nat
  | [] => 0
  | t :: ts => (if (dump t).success then 1 else 0) + tableSuccessCount dump ts

/-- failedTables after the loop, in order. -/
def tableFailedList (dump : String → TableDump) : List String → List String
  | [] => []
  | t :: ts =>
    if (dump t).success then tableFailedList dump ts
    else t :: tableFailedList dump ts

/-- The header written to the output file before the loop (part_002 lines
1042-1046). -/
def tableHeader : String :=
  "-- Table-by-Table Recovery\n-- Some tables may be skipped due to corruption\n"
    ++ "PRAGMA foreign_keys=OFF;\n\n"

/-- The summary footer appended after the loop (part_002 lines 1080-1086). -/
def tableFooter (sc total : Nat) (failed : List String) : String :=
  let base := "\n-- Recovery Summary:\n-- Successfully recovered: "
    ++ toString sc ++ "/" ++ toString total ++ " tables\n"
  if failed.length > 0 then
    base ++ "-- Failed tables: " ++ String.intercalate ", " failed ++ "\n"
  else base

/-- All appends tryTableByTableRecovery makes to the output SQL file, in
order: nothing when no tables were enumerated (the function returns failure
before writing), otherwise the header, one chunk per table, and the summary
footer. -/
def tableRecoveryFileAppends (dump : String → TableDump) (tables : List String) :
    List String :=
  if tables.isEmpty then []
  else
    tableHeader :: tableChunks dump tables
      ++ [tableFooter (tableSuccessCount dump tables) tables.length
            (tableFailedList dump tables)]

/-- attemptedTables lists exactly the enumerated tables in order. -/
theorem attemptedTables_eq (dump : String → TableDump) (tables : List String) :
    attemptedTables dump tables = tables := by
  induction tables with
  | nil => rfl
  | cons t ts ih => simp [attemptedTables, ih]

/-- The placeholder chunk of every failed table occurs among the appended
chunks. -/
theorem failed_chunk_mem (dump : String → TableDump) (tables : List String) :
    ∀ t ∈ tables, (dump t).success = false →
      ("\n-- Table: " ++ t ++ " (FAILED - " ++ (dump t).err ++ ")\n")
        ∈ tableChunks dump tables := by
  induction tables with
  | nil => intro t ht; simp at ht
  | cons u ts ih =>
    intro t ht hf
    rcases List.mem_cons.mp ht with rfl | hmem
    · simp [tableChunks, tableChunk, hf]
    · exact List.mem_cons_of_mem _ (ih t hmem hf)

/-- Claim C3: for every non-empty enumerated table list, the loop attempts a
per-table dump of every table in enumeration order (the attempt count equals
the enumerated count, no per-table failure aborts the loop), and every
failed table has its explanatory placeholder comment appended to the output
SQL file. -/
theorem table_by_table_never_aborts (dump : String → TableDump)
    (tables : List String) (hne : tables ≠ []) :
    attemptedTables dump tables = tables ∧
      (attemptedTables dump tables).length = tables.length ∧
      ∀ t ∈ tables, (dump t).success = false →
        ("\n-- Table: " ++ t ++ " (FAILED - " ++ (dump t).err ++ ")\n")
          ∈ tableRecoveryFileAppends dump tables := by
  refine ⟨attemptedTables_eq dump tables, by rw [attemptedTables_eq], ?_⟩
  intro t ht hf
  have hchunk := failed_chunk_mem dump tables t ht hf
  have hne2 : tables.isEmpty = false := by
    cases tables with
    | nil => exact absurd rfl hne
    | cons u ts => rfl
  simp only [tableRecoveryFileAppends, hne2, Bool.false_eq_true, if_false]
  exact List.mem_cons_of_mem _ (List.mem_append_left _ hchunk)

/-- A concrete per-table dump oracle: the table good dumps fine, every other
table times out. -/
def dumpEx : String → TableDump := fun t =>
  if t = "good" then ⟨true, "CREATE TABLE good(x);", ""⟩
  else ⟨false, "", "timeout"⟩

/-- Claim C3 witness: a two-table enumeration with one failing table. -/
theorem table_by_table_never_aborts_witness :
    ((["good", "bad"] : List String) ≠ []) ∧
      (attemptedTables dumpEx ["good", "bad"] = ["good", "bad"] ∧
        (attemptedTables dumpEx ["good", "bad"]).length
          = (["good", "bad"] : List String).length ∧
        ∀ t ∈ (["good", "bad"] : List String), (dumpEx t).success = false →
          ("\n-- Table: " ++ t ++ " (FAILED - " ++ (dumpEx t).err ++ ")\n")
            ∈ tableRecoveryFileAppends dumpEx ["good", "bad"]) :=
  ⟨by decide, table_by_table_never_aborts dumpEx ["good", "bad"] (by decide)⟩

/-! ### Artifact download endpoint (C8)
Embeds the GET /api/download/:filename handler (part_002 lines 274-327)
over a POSIX path model: an absolute path is a list of segments below the
root.  path.join('uploads', filename) followed by path.resolve is modelled
as normalising the concatenation of the working directory, the segment
uploads and the split filename; the security check compares the rendered
path strings with startsWith, exactly as the code does. -/

/-- Split a string at every slash, keeping empty segments, as the path model
of a raw identifier that may contain separators. -/
def splitSlashAux : List Char → List Char → List String
  | [], acc => [String.mk acc.reverse]
  | c :: cs, acc =>
    if c = '/' then String.mk acc.reverse :: splitSlashAux cs []
    else splitSlashAux cs (c :: acc)

/-- Split a path string at slashes. -/
def splitSlash (s : String) : List String := splitSlashAux s.data []

/-- One step of POSIX path normalisation: empty and dot segments vanish,
a dot-dot segment pops the last component (clamping at the root), any other
segment is appended. -/
def normStep (acc : List String) (seg : String) : List String :=
  if seg = "" ∨ seg = "." then acc
  else if seg = ".." then acc.dropLast
  else acc ++ [seg]

/-- Resolve a segment list against an already-absolute working directory,
as path.resolve does after path.join concatenated the pieces. -/
def resolveSegs (cwd : List String) (segs : List String) : List String :=
  segs.foldl normStep cwd

/-- Render an absolute path as a string, slash-separated below the root. -/
def renderAbs (segs : List String) : String :=
  "/" ++ String.intercalate "/" segs

/-- JavaScript String.startsWith: the first string is a character-level
leading piece of the second. -/
def strStarts (p s : String) : Bool := p.data.isPrefixOf s.data

/-- What the download handler did: whether the request was rejected with
403, and which filesystem paths it touched (fs.access and the read stream),
in order. -/
structure DownloadResult where
  rejected : Bool
  accessed : List (List String)
  deriving DecidableEq, Repr

/-- The GET /api/download/:filename handler (part_002 lines 274-327):
join the identifier under uploads, resolve it, and serve the file only when
the resolved path string starts with the resolved uploads directory string;
otherwise answer 403 without touching the filesystem. -/
def downloadHandler (cwd : List String) (filename : String) : DownloadResult :=
  let resolvedPath := resolveSegs cwd ("uploads" :: splitSlash filename)
  let uploadsPath := resolveSegs cwd ["uploads"]
  if strStarts (renderAbs uploadsPath) (renderAbs resolvedPath) then
    { rejected := false, accessed := [resolvedPath] }
  else { rejected := true, accessed := [] }

/-- Claim C8 (counterexample): the identifier ../uploadsx/secret resolves
outside the uploads directory (its resolved segments do not extend the
uploads directory segments), yet the handler does not reject it and touches
the filesystem at the escaped path, because the rendered string
/app/uploadsx/secret starts with the rendered string /app/uploads. -/
theorem download_sibling_dir_bypass_counterexample :
    (resolveSegs ["app"] ["uploads"]).isPrefixOf
        (resolveSegs ["app"] ("uploads" :: splitSlash "../uploadsx/secret")) = false ∧
      (downloadHandler ["app"] "../uploadsx/secret").rejected = false ∧
      (downloadHandler ["app"] "../uploadsx/secret").accessed
        = [["app", "uploadsx", "secret"]] := by
  decide

/-- Claim C8 (amended): the download handler rejects exactly those
identifiers whose resolved path string does not start with the uploads
directory path string, and a rejected request touches no filesystem path at
all; identifiers escaping into sibling directories whose rendered path
shares that leading string are not rejected. -/
theorem download_reject_before_fs (cwd : List String) (filename : String) :
    (strStarts (renderAbs (resolveSegs cwd ["uploads"]))
          (renderAbs (resolveSegs cwd ("uploads" :: splitSlash filename))) = false →
        downloadHandler cwd filename = { rejected := true, accessed := [] }) ∧
      ((downloadHandler cwd filename).rejected = true →
        (downloadHandler cwd filename).accessed = []) := by
  unfold downloadHandler
  cases hch : strStarts (renderAbs (resolveSegs cwd ["uploads"]))
      (renderAbs (resolveSegs cwd ("uploads" :: splitSlash filename))) with
  | false => simp [hch]
  | true => simp [hch]

/-- Claim C8 amended witness: a plain traversal identifier is rejected
before any filesystem access. -/
theorem download_reject_before_fs_witness :
    downloadHandler ["app"] "../../etc/passwd" = { rejected := true, accessed := [] } ∧
      (downloadHandler ["app"] "../../etc/passwd").accessed = [] := by
  have h := download_reject_before_fs ["app"] "../../etc/passwd"
  have h1 := h.1 (by decide)
  exact ⟨h1, by rw [h1]⟩

/-! ### External-process wrappers always resolve (C9)
Each wrapper in part_002 creates a promise around a spawned sqlite3 process
and settles it from the close event, the spawn error event, or (for the
single-table dump) its own timeout.  The settlement of each wrapper is
embedded as a function into Except String of its result type: an ok value
is a resolved promise, an error value would be a rejection or a thrown
exception escaping to the caller.  Fallible filesystem writes inside the
close handlers are modelled by an Option String argument (none for a
successful write, some message for a throw that the code catches). -/

/-- Terminal event of a plain wrapped process: the spawn error event with
its message, or the close event with the exit code and the captured stdout
and stderr text. -/
inductive ProcEvent where
  | spawnFail (msg : String)
  | closed (code : Int) (out : String) (errText : String)
  deriving DecidableEq, Repr

/-- Terminal event of dumpSingleTable, which adds its own 30-second
timeout. -/
inductive TableDumpEvent where
  | timeoutFired
  | spawnFail (msg : String)
  | closed (code : Int) (out : String) (errText : String)
  deriving DecidableEq, Repr

/-- Terminal event of the monitored streaming dump tryDumpCommand: one of
the three monitor kills, the spawn error event, or the close event with the
bytes streamed so far and an optional caught write-stream error. -/
inductive StreamDumpEnd where
  | killedZeroTimeout
  | killedWatchdogNoOutput
  | killedWatchdogStuck (bytes : Nat)
  | killedHeartbeatStall (bytes : Nat)
  | spawnFail (msg : String)
  | closed (code : Int) (bytes : Nat) (errText : String) (writeErr : Option String)
  deriving DecidableEq, Repr

/-- Resolved value of dumpSingleTable. -/
structure DumpTableResult where
  success : Bool
  sql : Option String
  err : Option String
  deriving DecidableEq, Repr

/-- Resolved value of tryDumpCommand.  bytesSalvageable embeds the flag the
source attaches to kill results recording whether nonzero bytes were
already written. -/
structure StreamDumpResult where
  success : Bool
  err : Option String
  timedOut : Bool
  bytesSalvageable : Bool
  deriving DecidableEq, Repr

/-- Resolved value of the simple wrappers (schema extraction, table listing
report, materialization). -/
structure SimpleResult where
  success : Bool
  err : Option String
  deriving DecidableEq, Repr

/-- True exactly when the promise settled by resolving (never by rejecting
or throwing). -/
def isResolved {α : Type} : Except String α → Bool
  | Except.ok _ => true
  | Except.error _ => false

/-- Settlement of dumpSingleTable (part_002 lines 1103-1143): the timeout
resolves a failure result with the text timeout, a close with exit code 0
and nonempty output resolves success with the dumped SQL, any other close
resolves a failure with the stderr text (or dump failed when stderr is
empty), and the spawn error event resolves a failure carrying the spawn
error message. -/
def dumpSingleTable_settle : TableDumpEvent → Except String DumpTableResult
  | TableDumpEvent.timeoutFired => Except.ok ⟨false, none, some "timeout"⟩
  | TableDumpEvent.spawnFail m => Except.ok ⟨false, none, some m⟩
  | TableDumpEvent.closed code out errText =>
    if code = 0 ∧ out.length > 0 then Except.ok ⟨true, some out, none⟩
    else Except.ok ⟨false, none,
      some (if errText.length > 0 then errText else "dump failed")⟩

/-- Settlement of the effective queryDatabase (part_002 lines 1384-1417; it
shadows the earlier declaration at lines 987-1024 by hoisting): a close with
exit code 0 and nonempty output resolves the parsed JSON, resolving null
when parsing throws; every other close and the spawn error event resolve
null.  The JSON parser is passed in as a function into Option. -/
def queryDatabase_settle {J : Type} (parse : String → Option J) :
    ProcEvent → Except String (Option J)
  | ProcEvent.spawnFail _ => Except.ok none
  | ProcEvent.closed code out _ =>
    if code = 0 ∧ out.length > 0 then Except.ok (parse out)
    else Except.ok none

/-- Settlement of tryDumpCommand (part_002 lines 723-983): every monitor
kill resolves a structured timeout failure, the close event resolves from
the caught write error, the exit code and the byte count, and the spawn
error event resolves a failure with the spawn error message. -/
def tryDumpCommand_settle : StreamDumpEnd → Except String StreamDumpResult
  | StreamDumpEnd.killedZeroTimeout =>
    Except.ok ⟨false,
      some "Database too corrupted for full dump - switching to table recovery",
      true, false⟩
  | StreamDumpEnd.killedWatchdogNoOutput =>
    Except.ok ⟨false,
      some "Process produced no output - database may be too corrupted for .dump",
      true, false⟩
  | StreamDumpEnd.killedWatchdogStuck bytes =>
    Except.ok ⟨false, some "Process stuck on corrupted data - timeout", true,
      decide (0 < bytes)⟩
  | StreamDumpEnd.killedHeartbeatStall bytes =>
    Except.ok ⟨false,
      some "Dump process timeout - database too corrupted for full dump", true,
      decide (0 < bytes)⟩
  | StreamDumpEnd.spawnFail m => Except.ok ⟨false, some m, false, false⟩
  | StreamDumpEnd.closed code bytes errText writeErr =>
    match writeErr with
    | some m => Except.ok ⟨false, some m, false, false⟩
    | none =>
      if code = 0 ∧ 0 < bytes then Except.ok ⟨true, none, false, false⟩
      else Except.ok ⟨false,
        some (if errText.length > 0 then errText else "No data recovered"),
        false, false⟩

/-- Settlement of trySchemaExtraction (part_002 lines 1146-1190): a close
with exit code 0 and nonempty output writes the wrapped schema script and
resolves success, a caught write error resolves failure, any other close
resolves failure with the stderr text, and the spawn error event resolves
failure with its message. -/
def trySchemaExtraction_settle (writeErr : Option String) :
    ProcEvent → Except String SimpleResult
  | ProcEvent.spawnFail m => Except.ok ⟨false, some m⟩
  | ProcEvent.closed code out errText =>
    if code = 0 ∧ out.length > 0 then
      match writeErr with
      | none => Except.ok ⟨true, none⟩
      | some m => Except.ok ⟨false, some m⟩
    else Except.ok ⟨false, some errText⟩

/-- Settlement of tryBasicExtraction (part_002 lines 1193-1241): the close
handler writes a report whatever the exit code was and resolves success
unless the write threw (caught, resolving failure); the spawn error event
resolves failure with its message. -/
def tryBasicExtraction_settle (writeErr : Option String) :
    ProcEvent → Except String SimpleResult
  | ProcEvent.spawnFail m => Except.ok ⟨false, some m⟩
  | ProcEvent.closed _ _ _ =>
    match writeErr with
    | none => Except.ok ⟨true, none⟩
    | some m => Except.ok ⟨false, some m⟩

/-- Settlement of the server materializer createDatabaseFromSql (part_002
lines 1244-1326): a close with exit code 0 resolves success, any other
close resolves failure with the stderr text (or a fixed message when stderr
is empty), and the spawn error event resolves failure naming the spawn
error. -/
def createDatabaseFromSql_settle : ProcEvent → Except String SimpleResult
  | ProcEvent.spawnFail m =>
    Except.ok ⟨false, some ("Failed to create database: " ++ m)⟩
  | ProcEvent.closed code _ errText =>
    if code = 0 then Except.ok ⟨true, none⟩
    else Except.ok ⟨false,
      some (if errText.length > 0 then errText else "Database creation failed")⟩

/-- Claim C9: every external-process wrapper settles every terminal event by
resolving a structured value, never rejecting or throwing; in particular the
spawn error event of each wrapper is converted into a failure result (or a
null result for the metadata query). -/
theorem wrappers_always_resolve :
    (∀ ev, isResolved (dumpSingleTable_settle ev) = true) ∧
      (∀ (J : Type) (parse : String → Option J) (ev),
        isResolved (queryDatabase_settle parse ev) = true) ∧
      (∀ ev, isResolved (tryDumpCommand_settle ev) = true) ∧
      (∀ w ev, isResolved (trySchemaExtraction_settle w ev) = true) ∧
      (∀ w ev, isResolved (tryBasicExtraction_settle w ev) = true) ∧
      (∀ ev, isResolved (createDatabaseFromSql_settle ev) = true) ∧
      (∀ m, dumpSingleTable_settle (TableDumpEvent.spawnFail m)
        = Except.ok ⟨false, none, some m⟩) ∧
      (∀ (J : Type) (parse : String → Option J) (m),
        queryDatabase_settle parse (ProcEvent.spawnFail m) = Except.ok none) ∧
      (∀ m, tryDumpCommand_settle (StreamDumpEnd.spawnFail m)
        = Except.ok ⟨false, some m, false, false⟩) ∧
      (∀ m, createDatabaseFromSql_settle (ProcEvent.spawnFail m)
        = Except.ok ⟨false, some ("Failed to create database: " ++ m)⟩) := by
  refine ⟨?_, ?_, ?_, ?_, ?_, ?_, ?_, ?_, ?_, ?_⟩
  · intro ev
    cases ev with
    | timeoutFired => rfl
    | spawnFail m => rfl
    | closed code out errText =>
      simp only [dumpSingleTable_settle]
      split_ifs <;> rfl
  · intro J parse ev
    cases ev with
    | spawnFail m => rfl
    | closed code out errText =>
      simp only [queryDatabase_settle]
      split_ifs <;> rfl
  · intro ev
    cases ev with
    | killedZeroTimeout => rfl
    | killedWatchdogNoOutput => rfl
    | killedWatchdogStuck b => rfl
    | killedHeartbeatStall b => rfl
    | spawnFail m => rfl
    | closed code b errText w =>
      cases w with
      | none =>
        simp only [tryDumpCommand_settle]
        split_ifs <;> rfl
      | some m => rfl
  · intro w ev
    cases ev with
    | spawnFail m => rfl
    | closed code out errText =>
      simp only [trySchemaExtraction_settle]
      split_ifs with h
      · cases w <;> rfl
      · rfl
  · intro w ev
    cases ev with
    | spawnFail m => rfl
    | closed code out errText => cases w <;> rfl
  · intro ev
    cases ev with
    | spawnFail m => rfl
    | closed code out errText =>
      simp only [createDatabaseFromSql_settle]
      split_ifs <;> rfl
  · intro m; rfl
  · intro J parse m; rfl
  · intro m; rfl
  · intro m; rfl

/-! ### Recovery status probe (C10)
Embeds the GET /api/status handler (part_002 lines 449-486): list the
recovery SQL files in the uploads directory, pick the most recently
modified, and report the activity flags from its age in rounded seconds. -/

/-- A directory entry as the status probe sees it: name, modification time
in milliseconds and size in bytes. -/
structure UploadFile where
  name : String
  mtimeMs : Nat
  sizeBytes : Nat
  deriving DecidableEq, Repr

/-- JavaScript String.endsWith: the first string is a character-level
trailing piece of the second. -/
def strEnds (p s : String) : Bool := p.data.isSuffixOf s.data

/-- The filter of the status probe (part_002 line 453): files whose name
starts with recovery_ or manual_recovery_ and ends with .sql. -/
def isRecoverySql (f : UploadFile) : Bool :=
  (strStarts "recovery_" f.name || strStarts "manual_recovery_" f.name)
    && strEnds ".sql" f.name

/-- The file the probe reports on: the handler sorts the filtered files by
descending modification time with a stable sort and takes the head, which
is the first file of maximal modification time. -/
def latestOf : List UploadFile → Option UploadFile
  | [] => none
  | f :: fs =>
    match latestOf fs with
    | none => some f
    | some g => if g.mtimeMs > f.mtimeMs then some g else some f

/-- Math.round(ms / 1000) over an integer millisecond difference: round
half toward positive infinity. -/
def jsRoundSeconds (ms : Int) : Int := Int.fdiv (ms + 500) 1000

/-- The JSON body of the status probe response, reduced to the fields the
claim is about. -/
structure StatusResp where
  isActive : Bool
  isStuck : Bool
  fileName : Option String
  idleSeconds : Option Int
  deriving DecidableEq, Repr

/-- The GET /api/status handler (part_002 lines 449-486): with no recovery
SQL file present both flags are false; otherwise the age of the most recent
one in rounded seconds drives isActive (age at most 120) and isStuck (age
over 120). -/
def statusProbe (files : List UploadFile) (nowMs : Nat) : StatusResp :=
  match latestOf (files.filter isRecoverySql) with
  | none => ⟨false, false, none, none⟩
  | some latest =>
    let age := jsRoundSeconds ((nowMs : Int) - (latest.mtimeMs : Int))
    ⟨decide (age ≤ 120), decide (120 < age), some latest.name, some age⟩

/-- latestOf returns none exactly on the empty list. -/
theorem latestOf_eq_none_iff (l : List UploadFile) :
    latestOf l = none ↔ l = [] := by
  cases l with
  | nil => simp [latestOf]
  | cons f fs =>
    simp only [latestOf]
    cases h : latestOf fs with
    | none => simp
    | some g =>
      constructor
      · intro hcontra
        by_cases hgt : g.mtimeMs > f.mtimeMs <;> simp [hgt] at hcontra
      · intro hcontra; cases hcontra

/-- On a non-empty list, latestOf returns a member with maximal modification
time. -/
theorem latestOf_spec (l : List UploadFile) (hne : l ≠ []) :
    ∃ x, latestOf l = some x ∧ x ∈ l ∧ ∀ f ∈ l, f.mtimeMs ≤ x.mtimeMs := by
  induction l with
  | nil => exact absurd rfl hne
  | cons f fs ih =>
    cases hfs : latestOf fs with
    | none =>
      have : fs = [] := (latestOf_eq_none_iff fs).mp hfs
      subst this
      exact ⟨f, by simp [latestOf], by simp, by simp⟩
    | some g =>
      have hfsne : fs ≠ [] := by
        intro hcontra; subst hcontra; simp [latestOf] at hfs
      obtain ⟨x, hx, hxmem, hxmax⟩ := ih hfsne
      rw [hfs] at hx
      cases hx
      by_cases hgt : g.mtimeMs > f.mtimeMs
      · refine ⟨g, ?_, List.mem_cons_of_mem f hxmem, ?_⟩
        · simp [latestOf, hfs, hgt]
        · intro u hu
          rcases List.mem_cons.mp hu with rfl | hu2
          · exact Nat.le_of_lt hgt
          · exact hxmax u hu2
      · refine ⟨f, ?_, List.mem_cons_self f fs, ?_⟩
        · simp [latestOf, hfs, hgt]
        · intro u hu
          rcases List.mem_cons.mp hu with rfl | hu2
          · exact Nat.le_refl _
          · exact Nat.le_trans (hxmax u hu2) (Nat.le_of_not_lt hgt)

/-- Claim C10: when no recovery SQL file exists the probe reports both flags
false; when at least one exists the probe reports on a most recently
modified one, isActive holds exactly when its rounded age is at most 120
seconds, isStuck holds exactly when that age exceeds 120 seconds, and
exactly one of the two flags is true. -/
theorem status_probe_flags (files : List UploadFile) (nowMs : Nat) :
    (files.filter isRecoverySql = [] →
        statusProbe files nowMs = ⟨false, false, none, none⟩) ∧
      (files.filter isRecoverySql ≠ [] →
        ∃ latest, latest ∈ files.filter isRecoverySql ∧
          (∀ f ∈ files.filter isRecoverySql, f.mtimeMs ≤ latest.mtimeMs) ∧
          statusProbe files nowMs =
            ⟨decide (jsRoundSeconds ((nowMs : Int) - (latest.mtimeMs : Int)) ≤ 120),
             decide (120 < jsRoundSeconds ((nowMs : Int) - (latest.mtimeMs : Int))),
             some latest.name,
             some (jsRoundSeconds ((nowMs : Int) - (latest.mtimeMs : Int)))⟩ ∧
          (statusProbe files nowMs).isActive = !(statusProbe files nowMs).isStuck) := by
  constructor
  · intro hempty
    have : latestOf (files.filter isRecoverySql) = none := by
      rw [hempty]; rfl
    simp [statusProbe, this]
  · intro hne
    obtain ⟨latest, hlat, hmem, hmax⟩ := latestOf_spec (files.filter isRecoverySql) hne
    refine ⟨latest, hmem, hmax, ?_, ?_⟩
    · simp [statusProbe, hlat]
    · simp only [statusProbe, hlat]
      by_cases hage : jsRoundSeconds ((nowMs : Int) - (latest.mtimeMs : Int)) ≤ 120
      · simp [hage, not_lt.mpr hage]
      · simp [hage, lt_of_not_le hage]

/-- A directory with one recovery SQL file and one unrelated file. -/
def statusFilesEx : List UploadFile :=
  [⟨"recovery_1_a.sql", 1000, 5⟩, ⟨"notes.txt", 99999, 1⟩]

/-- Claim C10 witness: the probe over a concrete directory listing. -/
theorem status_probe_flags_witness :
    (statusFilesEx.filter isRecoverySql ≠ []) ∧
      (∃ latest, latest ∈ statusFilesEx.filter isRecoverySql ∧
        (∀ f ∈ statusFilesEx.filter isRecoverySql, f.mtimeMs ≤ latest.mtimeMs) ∧
        statusProbe statusFilesEx 500000 =
          ⟨decide (jsRoundSeconds ((500000 : Int) - (latest.mtimeMs : Int)) ≤ 120),
           decide (120 < jsRoundSeconds ((500000 : Int) - (latest.mtimeMs : Int))),
           some latest.name,
           some (jsRoundSeconds ((500000 : Int) - (latest.mtimeMs : Int)))⟩ ∧
        (statusProbe statusFilesEx 500000).isActive
          = !(statusProbe statusFilesEx 500000).isStuck) :=
  ⟨by decide, (status_probe_flags statusFilesEx 500000).2 (by decide)⟩

end RecoverySrv
